import Mathlib

/-!
Shallow embedding of the ResearchAgent repository's core tools
(`Tools/WebScraperTool.py`, `Tools/SearchTool.py` / `Tools/AdvSearchTools.py`,
`Tools/All.py`, `Tools/DuckSearch.py`).

Network effects (HTTP GET, robots.txt reads, the DuckDuckGo provider) are
modelled as oracle functions carried in an environment record; each operation
additionally returns the list of network events it issued, so that claims
about which fetches happen (robots.txt caching, content GETs) are statable.
Python exceptions raised by the oracles are modelled with `Except`;
`None` returns are modelled with `Option`.
-/

/-- A single quote character, used when rebuilding Python format strings. -/
def quoteCh : String := String.singleton (Char.ofNat 39)

/-- Check that the character list `needle` starts the character list `hay`. -/
def charsLead : List Char → List Char → Bool
  | [], _ => true
  | _ :: _, [] => false
  | a :: as, b :: bs => a = b && charsLead as bs

/-- Python's `needle in hay` substring test on strings. -/
def strContains (hay needle : String) : Bool :=
  (List.range (hay.data.length + 1)).any (fun i => charsLead needle.data (hay.data.drop i))

/-- Python's `s[:n]` character slice (first `n` characters). -/
def strTake (s : String) (n : Nat) : String := String.mk (s.data.take n)

/-- Python's `s.lower()` (on the ASCII header values the code inspects). -/
def strToLower (s : String) : String := String.mk (s.data.map Char.toLower)

/-- Python's `s.strip()`: drop leading and trailing whitespace. -/
def strStrip (s : String) : String :=
  String.mk (((s.data.dropWhile Char.isWhitespace).reverse.dropWhile Char.isWhitespace).reverse)

/-! ## URL parsing (the fragment of `urllib.parse.urlparse` the code uses) -/

structure ParsedUrl where
  scheme : String
  netloc : String
  path : String
  query : String
deriving DecidableEq

/-- Split the part after the scheme into the network location (up to the first
of `/`, `?`, `#`) and the remainder, which keeps its leading separator. -/
def netlocSplit : List Char → List Char × List Char
  | [] => ([], [])
  | c :: rest =>
    if c = '/' ∨ c = '?' ∨ c = '#' then ([], c :: rest)
    else
      let p := netlocSplit rest
      (c :: p.1, p.2)

/-- Split the part after the netloc into path (up to the first `?` or `#`)
and query (after `?`, up to `#`). -/
def pathQuerySplit : List Char → List Char × List Char
  | [] => ([], [])
  | c :: rest =>
    if c = '#' then ([], [])
    else if c = '?' then ([], (rest.takeWhile (fun d => d ≠ '#')))
    else
      let p := pathQuerySplit rest
      (c :: p.1, p.2)

/-- Split a character list at the first occurrence of `://`, returning the
scheme characters and the remainder, or `none` when no `://` occurs. -/
def schemeSplit : List Char → Option (List Char × List Char)
  | ':' :: '/' :: '/' :: r => some ([], r)
  | c :: rest =>
    match schemeSplit rest with
    | some p => some (c :: p.1, p.2)
    | none => none
  | [] => none

/-- The fragment of `urllib.parse.urlparse` exercised by the tools: split a
`scheme://netloc/path?query` URL into its four components. -/
def urlparse (url : String) : ParsedUrl :=
  let sr :=
    match schemeSplit url.data with
    | some p => (String.mk p.1, p.2)
    | none => ("", url.data)
  let nl := netlocSplit sr.2
  let pq := pathQuerySplit nl.2
  { scheme := sr.1, netloc := String.mk nl.1,
    path := String.mk pq.1, query := String.mk pq.2 }

/-- The robots.txt URL derived in `is_scraping_allowed`:
`f"{parsed_url.scheme}://{parsed_url.netloc}" + "/robots.txt"`. -/
def robotsUrlOf (url : String) : String :=
  let p := urlparse url
  p.scheme ++ "://" ++ p.netloc ++ "/robots.txt"

/-- The path handed to `rp.can_fetch`: the URL's path (`/` when empty),
with `?query` appended when a query string is present. -/
def checkPathOf (url : String) : String :=
  let p := urlparse url
  let path := if p.path = "" then "/" else p.path
  if p.query ≠ "" then path ++ "?" ++ p.query else path

/-! ## HTML documents and BeautifulSoup's `find` (the fragment used) -/

/-- An element of the parsed document, in document order, carrying the
attributes the extraction heuristics inspect and its `get_text` output. -/
structure Tag where
  name : String
  idAttr : Option String
  classes : List String
  role : Option String
  text : String
deriving DecidableEq

/-- A parsed HTML document: its elements flattened in document order, so that
`find` returns the first element matching a predicate. -/
structure Soup where
  tags : List Tag
deriving DecidableEq

def Soup.findTag (s : Soup) (n : String) : Option Tag :=
  s.tags.find? (fun t => t.name = n)

def Soup.findByIdAttr (s : Soup) (i : String) : Option Tag :=
  s.tags.find? (fun t => t.idAttr = some i)

def Soup.findByClass (s : Soup) (c : String) : Option Tag :=
  s.tags.find? (fun t => t.classes.contains c)

def Soup.findByRole (s : Soup) (r : String) : Option Tag :=
  s.tags.find? (fun t => t.role = some r)

/-- Python's `a or b` on `find` results: a found tag wins, otherwise `b`. -/
def pyOr (a b : Option Tag) : Option Tag :=
  match a with
  | some t => some t
  | none => b

/-- The tag names decomposed before extraction in
`WebScraperTool.scrape_website_text`. -/
def decomposeNames : List String :=
  ["script", "style", "header", "footer", "nav", "aside", "form", "button",
   "img", "svg", "canvas"]

/-- `for tag in soup([...]): tag.decompose()` — drop the non-content tags. -/
def decomposeTags (s : Soup) : Soup :=
  ⟨s.tags.filter (fun t => ¬ decomposeNames.contains t.name)⟩

/-- The `main_content` candidate chain of `scrape_website_text`
(`Tools/WebScraperTool.py` lines 108–114, identically `Tools/All.py` 82–88):
`soup.find('article') or soup.find('main') or soup.find(id='content') or
soup.find(id='main-content') or soup.find(class_='post-content') or
soup.find(class_='entry-content') or soup.find(role='main')`. -/
def mainContent (s : Soup) : Option Tag :=
  pyOr (s.findTag "article") <|
  pyOr (s.findTag "main") <|
  pyOr (s.findByIdAttr "content") <|
  pyOr (s.findByIdAttr "main-content") <|
  pyOr (s.findByClass "post-content") <|
  pyOr (s.findByClass "entry-content") <|
  s.findByRole "main"

/-- `body = main_content if main_content else soup.find('body')`. -/
def bodySelect (s : Soup) : Option Tag :=
  match mainContent s with
  | some t => some t
  | none => s.findTag "body"

/-- Split a character list into maximal whitespace-free words. -/
def wordsAux : List Char → List Char → List (List Char)
  | [], acc => if acc = [] then [] else [acc.reverse]
  | c :: rest, acc =>
    if c.isWhitespace then
      if acc = [] then wordsAux rest [] else acc.reverse :: wordsAux rest []
    else wordsAux rest (c :: acc)

/-- `re.sub(r'\s+', ' ', all_text).strip()` — collapse whitespace runs to one
space and trim. -/
def collapseWs (s : String) : String :=
  String.intercalate " " ((wordsAux s.data []).map String.mk)

/-- Body-region selection followed by text extraction and cleaning: `None`
when no body-equivalent region exists (the code's `if not body: return None`),
otherwise the cleaned text. -/
def selectAndExtract (s : Soup) : Option String :=
  match bodySelect s with
  | none => none
  | some body => some (collapseWs body.text)

/-! ## Network environment and the robots policy check -/

/-- A network event issued by the tools: a robots.txt read attempt
(`rp.read()`) or a page-content GET (`requests.get`). -/
inductive NetEvent where
  | robotsFetch (url : String)
  | get (url : String)
deriving DecidableEq

/-- The parsed robots.txt rules as consulted by the code: the
`RobotFileParser.can_fetch(user_agent, path)` answer. -/
structure RobotsParser where
  canFetch : String → String → Bool

/-- The result of `requests.get`: a response (status, Content-Type header and
the parsed document), a timeout, or another `RequestException`. -/
inductive HttpResult where
  | success (status : Nat) (contentType : String) (soup : Soup)
  | timeout
  | requestError (msg : String)

/-- The network: reading a robots.txt URL either yields parsed rules or
raises (models `rp.read()`), and a GET yields an `HttpResult`. -/
structure ScrapeEnv where
  readRobots : String → Except String RobotsParser
  httpGet : String → HttpResult

/-- `is_scraping_allowed` (`Tools/WebScraperTool.py` lines 16–62): derive the
host's robots.txt URL, attempt to read it (on failure return `True`), then
answer `rp.can_fetch(user_agent, path)`. Also returns the network events
issued: every call attempts exactly one robots.txt read. -/
def is_scraping_allowed (env : ScrapeEnv) (url : String) (userAgent : String) :
    Bool × List NetEvent :=
  let robotsUrl := robotsUrlOf url
  match env.readRobots robotsUrl with
  | Except.error _ => (true, [NetEvent.robotsFetch robotsUrl])
  | Except.ok rp => (rp.canFetch userAgent (checkPathOf url), [NetEvent.robotsFetch robotsUrl])

/-- The message returned by `scrape_website_text` when robots.txt disallows:
`f"Scraping of {url} is disallowed by robots.txt."`. -/
def disallowedMsg (url : String) : String :=
  "Scraping of " ++ url ++ " is disallowed by robots.txt."

/-- `scrape_website_text` (`Tools/WebScraperTool.py` lines 65–144): robots
check first (disallowed → the message string, no GET); then `requests.get`
(timeout / `RequestException` → `None`); `raise_for_status` (4xx/5xx raises,
caught → `None`); non-HTML Content-Type → `None`; then tag decomposition,
body-region selection (no body → `None`) and text cleaning. Also returns the
network events issued. -/
def scrape_website_text (env : ScrapeEnv) (url : String) :
    Option String × List NetEvent :=
  let chk := is_scraping_allowed env url "*"
  if chk.1 = false then
    (some (disallowedMsg url), chk.2)
  else
    let ev := chk.2 ++ [NetEvent.get url]
    match env.httpGet url with
    | HttpResult.timeout => (none, ev)
    | HttpResult.requestError _ => (none, ev)
    | HttpResult.success st ct sp =>
      if 400 ≤ st ∧ st < 600 then (none, ev)
      else if strContains (strToLower ct) "text/html" = false then (none, ev)
      else (selectAndExtract (decomposeTags sp), ev)

/-- Run `is_scraping_allowed` over a list of URLs in one process run,
collecting decisions and the concatenated network events. -/
def robotsCheckRun (env : ScrapeEnv) (urls : List String) (ua : String) :
    List Bool × List NetEvent :=
  match urls with
  | [] => ([], [])
  | u :: rest =>
    let r := is_scraping_allowed env u ua
    let rs := robotsCheckRun env rest ua
    (r.1 :: rs.1, r.2 ++ rs.2)

/-! ## Concrete environments used in witnesses and counterexamples -/

/-- Rules allowing every fetch. -/
def rpAllow : RobotsParser := ⟨fun _ _ => true⟩

/-- Rules denying every fetch. -/
def rpDeny : RobotsParser := ⟨fun _ _ => false⟩

/-- An environment whose robots.txt always parses to all-allow rules. -/
def envAllow : ScrapeEnv :=
  { readRobots := fun _ => Except.ok rpAllow,
    httpGet := fun _ => HttpResult.timeout }

/-- An environment whose robots.txt always parses to all-deny rules. -/
def envDeny : ScrapeEnv :=
  { readRobots := fun _ => Except.ok rpDeny,
    httpGet := fun _ => HttpResult.timeout }

/-! ## Batch search (`searchTopics` in `Tools/SearchTool.py` and
`Tools/AdvSearchTools.py`, identical in both files) -/

/-- The search backend as seen by `searchTopics`: `search.batch(queryList)`
and `searchWider.batch(queryList, num_results=...)`, each returning one
string per query or raising. -/
structure SearchEnv where
  headlineBatch : List String → Except String (List String)
  advBatch : List String → Int → Except String (List String)

/-- LangChain's `batch` over a per-query runnable: one output per query, and
a failure for any single query raises out of the whole `batch` call. -/
def batchOf (f : String → Except String String) : List String → Except String (List String)
  | [] => Except.ok []
  | q :: qs =>
    match f q with
    | Except.error e => Except.error e
    | Except.ok s =>
      match batchOf f qs with
      | Except.error e => Except.error e
      | Except.ok rest => Except.ok (s :: rest)

/-- One per-query block of the `searchTopics` output:
`f"--- Results for Query: '{q}' ---\n"` then `f"Top Answer - {h}"`, a
newline, and `f"Other Sources - {a}"`. -/
def sectionText (q h a : String) : String :=
  "--- Results for Query: " ++ quoteCh ++ q ++ quoteCh ++ " ---\n"
    ++ "Top Answer - " ++ h ++ "\n" ++ "Other Sources - " ++ a

/-- The per-query sections built by the `for i in range(min_len)` loop of
`searchTopics`, with the Python conditional defaults for out-of-range
indices. -/
def reportSections (queryList headline adv : List String) : List String :=
  let minLen := min (min queryList.length headline.length) adv.length
  (List.range minLen).map (fun i =>
    sectionText (queryList.getD i "") (headline.getD i "No headline result found.")
      (adv.getD i "No wider result found."))

/-- Concatenate sections with the `"\n\n"` separator the loop inserts after
every section but the last. -/
def buildOutput : List String → String
  | [] => ""
  | [s] => s
  | s :: rest => s ++ "\n\n" ++ buildOutput rest

/-- `searchTopics` (`Tools/SearchTool.py` lines 14–59 and
`Tools/AdvSearchTools.py` lines 17–62): run both batches (an exception from
either is caught and replaces the whole output with one error message), build
one section per index below `min(len(queryList), len(Headline),
len(AdvSearch))`, and substitute the no-results message when the output is
empty and the query list is not. -/
def searchTopics (env : SearchEnv) (queryList : List String) (numResults : Int) : String :=
  match env.headlineBatch queryList with
  | Except.error e => "An error occurred during batch search: " ++ e
  | Except.ok headline =>
    match env.advBatch queryList numResults with
    | Except.error e => "An error occurred during batch search: " ++ e
    | Except.ok adv =>
      let output := buildOutput (reportSections queryList headline adv)
      if output = "" ∧ queryList ≠ [] then
        "No search results found for the queries: " ++ String.intercalate ", " queryList
      else output

/-! ## DuckDuckGo search (`search_web_ddg` in `Tools/DuckSearch.py` lines
13–47 and `Tools/All.py` lines 9–43, identical) -/

/-- A raw result yielded by `ddgs.text(...)`: a dict whose `title`, `href`
and `body` keys may each be absent. -/
structure DDGRecord where
  title : Option String
  href : Option String
  body : Option String
deriving DecidableEq

/-- A structured result built by `search_web_ddg`: the `title`, `link`,
`snippet` dict with missing provider fields defaulted to `""`. -/
structure SearchRecord where
  title : String
  link : String
  snippet : String
deriving DecidableEq

/-- `{"title": r.get("title", ""), "link": r.get("href", ""), "snippet":
r.get("body", "")}`. -/
def mapRecord (r : DDGRecord) : SearchRecord :=
  { title := r.title.getD "", link := r.href.getD "", snippet := r.body.getD "" }

/-- The `for i, r in enumerate(search_iterator)` loop of `search_web_ddg`:
append the mapped record, then break when `i >= num_results - 1`. -/
def ddgLoopAux (numResults : Int) : List DDGRecord → Nat → List SearchRecord
  | [], _ => []
  | r :: rest, i =>
    mapRecord r :: (if (i : Int) ≥ numResults - 1 then [] else ddgLoopAux numResults rest (i + 1))

/-- `search_web_ddg` (`Tools/DuckSearch.py` lines 13–47): iterate the
provider's records, mapping fields with empty-string defaults and breaking at
the requested count; any provider exception is caught and yields `[]`. -/
def search_web_ddg (ddgText : String → Int → Except String (List DDGRecord))
    (query : String) (numResults : Int) : List SearchRecord :=
  match ddgText query numResults with
  | Except.error _ => []
  | Except.ok rs => ddgLoopAux numResults rs 0

/-! ## News collection (`get_latest_news_text` in `Tools/All.py` lines
124–192) -/

/-- The external effects `get_latest_news_text` drives: the DuckDuckGo
provider (through `search_web_ddg`) and `Tools/All.py`'s
`scrape_website_text`, whose result is `None` on any failure and the
extracted text on success. -/
structure NewsEnv where
  ddgText : String → Int → Except String (List DDGRecord)
  scrape : String → Option String

/-- The loop state of `get_latest_news_text`: `combined_text`,
`articles_processed_count`, `urls_processed`, plus the list of
`(url, stored text)` pairs appended to `combined_text`, kept explicitly so
per-article properties are statable. -/
structure NewsState where
  combined : String
  count : Nat
  urlsProcessed : List String
  articles : List (String × String)
deriving DecidableEq

/-- The initial loop state. -/
def newsInit : NewsState := ⟨"", 0, [], []⟩

/-- `truncated_content = scraped_content[:max_chars_per_article]`, with
`"..."` appended when the scraped text was longer. -/
def truncateArticle (maxChars : Nat) (s : String) : String :=
  let t := strTake s maxChars
  if s.length > maxChars then t ++ "..." else t

/-- The text appended to `combined_text` for one scraped article. -/
def articleBlock (url text : String) : String :=
  "--- News Article Source: " ++ url ++ " ---\n\n" ++ text ++ "\n\n---\n\n"

/-- The `for result in search_results` loop of `get_latest_news_text`: stop
once enough articles are collected; skip results with an empty/absent URL or
an already-processed URL; otherwise mark the URL processed, scrape it, and on
success append the truncated text. -/
def newsLoop (scrape : String → Option String) (numArticles maxChars : Nat) :
    List SearchRecord → NewsState → NewsState
  | [], st => st
  | r :: rest, st =>
    if st.count ≥ numArticles then st
    else
      let url := r.link
      if url ≠ "" ∧ url ∉ st.urlsProcessed then
        let st1 : NewsState := { st with urlsProcessed := url :: st.urlsProcessed }
        match scrape url with
        | some content =>
          let t := truncateArticle maxChars content
          newsLoop scrape numArticles maxChars rest
            { st1 with combined := st1.combined ++ articleBlock url t,
                       count := st1.count + 1,
                       articles := st1.articles ++ [(url, t)] }
        | none => newsLoop scrape numArticles maxChars rest st1
      else newsLoop scrape numArticles maxChars rest st

/-- `get_latest_news_text` (`Tools/All.py` lines 124–192): search for
`"latest news " + topic` with `num_articles + 2` results; `None` when the
search returns nothing; run the scrape loop; `None` when zero articles were
processed, otherwise the combined text stripped. -/
def get_latest_news_text (env : NewsEnv) (topic : String) (numArticles maxChars : Nat) :
    Option String :=
  let searchResults := search_web_ddg env.ddgText ("latest news " ++ topic)
    ((numArticles : Int) + 2)
  if searchResults.isEmpty then none
  else
    let st := newsLoop env.scrape numArticles maxChars searchResults newsInit
    if st.count = 0 then none else some (strStrip st.combined)

/-! ## Claim theorems: robots policy -/

/-- C2 counterexample: two allow/deny checks for URLs on the same host in one
run issue two robots.txt fetches for that host, not one — `is_scraping_allowed`
re-reads robots.txt on every call and keeps no per-host cache. -/
theorem robots_cache_counterexample :
    (robotsCheckRun envAllow ["http://a.com/x", "http://a.com/y"] "*").2.count
        (NetEvent.robotsFetch "http://a.com/robots.txt") = 2 ∧
    ¬ ((robotsCheckRun envAllow ["http://a.com/x", "http://a.com/y"] "*").2.count
        (NetEvent.robotsFetch "http://a.com/robots.txt") ≤ 1) := by
  constructor <;> decide

/-- C2 (amended): every call to `is_scraping_allowed` attempts exactly one
robots.txt fetch for the URL's host — there is no per-host cache, so a run of
n checks issues n robots.txt fetch attempts, one per check, regardless of
host. -/
theorem robots_fetch_per_call (env : ScrapeEnv) (urls : List String) (ua : String) :
    (∀ url, (is_scraping_allowed env url ua).2 = [NetEvent.robotsFetch (robotsUrlOf url)]) ∧
    (robotsCheckRun env urls ua).2.length = urls.length := by
  have h : ∀ url, (is_scraping_allowed env url ua).2 = [NetEvent.robotsFetch (robotsUrlOf url)] := by
    intro url
    unfold is_scraping_allowed
    cases h : env.readRobots (robotsUrlOf url) <;> simp [h]
  refine ⟨h, ?_⟩
  induction urls with
  | nil => simp [robotsCheckRun]
  | cons u rest ih => simp [robotsCheckRun, h u, ih]

/-! ## The stdlib `RobotFileParser` read/can_fetch behavior, refined

The coarse `ScrapeEnv.readRobots` oracle above abstracts the parser state
after `rp.read()` as a single `canFetch` function (or a raised exception).
`urllib.robotparser` itself, however, swallows `HTTPError` inside `read()`:
401/403 set `disallow_all`, other 4xx set `allow_all`, 5xx set nothing and
leave `last_checked = 0`; only non-HTTP failures (e.g. `URLError`, body
decode errors) raise out of `read()` and reach the tool's `except`. The
definitions below model that behavior so the failure-mode claim about
`is_scraping_allowed` can be settled against it. -/

/-- The state of a `RobotFileParser`: the `disallow_all` / `allow_all`
flags, whether `last_checked` has been set, and the `can_fetch` decision of
the parsed entries. -/
structure RFPState where
  disallowAll : Bool
  allowAll : Bool
  lastChecked : Bool
  entries : RobotsParser

/-- A freshly constructed parser (the module-level `rp` at process start):
no flags set, `last_checked = 0`, no entries (every agent denied until a
successful read). -/
def freshRFP : RFPState := ⟨false, false, false, ⟨fun _ _ => false⟩⟩

/-- `RobotFileParser.can_fetch`: `disallow_all` denies, then `allow_all`
permits, then an unset `last_checked` denies, otherwise the parsed entries
decide. -/
def RFPState.canFetch (st : RFPState) (ua path : String) : Bool :=
  if st.disallowAll then false
  else if st.allowAll then true
  else if st.lastChecked = false then false
  else st.entries.canFetch ua path

/-- What the network returns for a robots.txt URL: a 200 body that parses to
the given entries, an HTTP error status, or a failure that raises out of
`urlopen`/decoding. -/
inductive RobotsHttpOutcome where
  | body (rules : RobotsParser)
  | httpError (code : Nat)
  | raised (msg : String)

/-- `RobotFileParser.read()`: a 200 body is parsed (setting `last_checked`
and the entries); an `HTTPError` is swallowed — 401/403 set `disallow_all`,
other 4xx set `allow_all`, anything else changes nothing; other failures
propagate as exceptions. -/
def rfpRead (st : RFPState) (outcome : RobotsHttpOutcome) : Except String RFPState :=
  match outcome with
  | RobotsHttpOutcome.body rules =>
    Except.ok { st with lastChecked := true, entries := rules }
  | RobotsHttpOutcome.httpError code =>
    if code = 401 ∨ code = 403 then Except.ok { st with disallowAll := true }
    else if 400 ≤ code ∧ code < 500 then Except.ok { st with allowAll := true }
    else Except.ok st
  | RobotsHttpOutcome.raised msg => Except.error msg

/-- `is_scraping_allowed` with the parser's `read` behavior expanded: run
`rp.read()` on the current parser state (a raised exception is caught and
returns `True`), then answer `rp.can_fetch(user_agent, path)`. Also returns
the resulting parser state (the mutated module-level `rp`). -/
def is_scraping_allowedRfp (fetch : String → RobotsHttpOutcome) (st : RFPState)
    (url : String) (userAgent : String) : Bool × RFPState :=
  match rfpRead st (fetch (robotsUrlOf url)) with
  | Except.error _ => (true, st)
  | Except.ok st2 => (st2.canFetch userAgent (checkPathOf url), st2)

/-- The refined check agrees with the coarse `is_scraping_allowed` whose
oracle returns the post-`read()` `can_fetch` function, so the claims proved
against the coarse model are unaffected by the refinement. -/
theorem is_scraping_allowedRfp_refines (fetch : String → RobotsHttpOutcome)
    (st : RFPState) (g : String → HttpResult) (url ua : String) :
    (is_scraping_allowedRfp fetch st url ua).1 =
      (is_scraping_allowed
        { readRobots := fun r =>
            match rfpRead st (fetch r) with
            | Except.error e => Except.error e
            | Except.ok st2 => Except.ok ⟨fun a p => st2.canFetch a p⟩,
          httpGet := g } url ua).1 := by
  unfold is_scraping_allowedRfp is_scraping_allowed
  cases h : rfpRead st (fetch (robotsUrlOf url)) <;> simp [h]

/-- C9 counterexample: a 403 robots.txt response is a fetch failure
(non-200), yet on the first check of a run the policy DENIES: `read()`
swallows the `HTTPError`, sets `disallow_all`, and `can_fetch` returns
False — not the claimed default-allowed. -/
theorem robots_non200_denies_counterexample :
    (is_scraping_allowedRfp (fun _ => RobotsHttpOutcome.httpError 403) freshRFP
      "http://a.com/x" "*").1 = false := by
  decide

/-- C9 (amended): only robots.txt failures that raise out of `rp.read()`
(network errors, undecodable bodies) default the first check of a run to
allowed. HTTP error responses are swallowed by `RobotFileParser`: 401/403
set `disallow_all` and the check denies; other 4xx set `allow_all` and the
check allows; any other error status (5xx) leaves the parser unread and the
check denies. A 200 body is parsed and the parsed rules decide. The check
never raises in any of these cases. -/
theorem robots_read_failure_cases (fetch : String → RobotsHttpOutcome) (url ua : String) :
    (∀ msg, fetch (robotsUrlOf url) = RobotsHttpOutcome.raised msg →
      (is_scraping_allowedRfp fetch freshRFP url ua).1 = true) ∧
    (∀ code, fetch (robotsUrlOf url) = RobotsHttpOutcome.httpError code →
      (code = 401 ∨ code = 403) →
      (is_scraping_allowedRfp fetch freshRFP url ua).1 = false) ∧
    (∀ code, fetch (robotsUrlOf url) = RobotsHttpOutcome.httpError code →
      ¬ (code = 401 ∨ code = 403) → 400 ≤ code → code < 500 →
      (is_scraping_allowedRfp fetch freshRFP url ua).1 = true) ∧
    (∀ code, fetch (robotsUrlOf url) = RobotsHttpOutcome.httpError code →
      ¬ (400 ≤ code ∧ code < 500) →
      (is_scraping_allowedRfp fetch freshRFP url ua).1 = false) ∧
    (∀ rules, fetch (robotsUrlOf url) = RobotsHttpOutcome.body rules →
      (is_scraping_allowedRfp fetch freshRFP url ua).1
        = rules.canFetch ua (checkPathOf url)) := by
  refine ⟨?_, ?_, ?_, ?_, ?_⟩
  · intro msg h
    unfold is_scraping_allowedRfp
    simp [h, rfpRead]
  · intro code h hcode
    unfold is_scraping_allowedRfp
    simp [h, rfpRead, hcode, RFPState.canFetch, freshRFP]
  · intro code h hne hge hlt
    unfold is_scraping_allowedRfp
    simp [h, rfpRead, hne, hge, hlt, RFPState.canFetch, freshRFP]
  · intro code h hnot
    have hne : ¬ (code = 401 ∨ code = 403) := by omega
    unfold is_scraping_allowedRfp
    simp [h, rfpRead, hne, hnot, RFPState.canFetch, freshRFP]
  · intro rules h
    unfold is_scraping_allowedRfp
    simp [h, rfpRead, RFPState.canFetch, freshRFP]

/-- C9 witness: the raising-read conjunct (a network failure out of
`rp.read()`) at a concrete input still yields allowed. -/
theorem robots_read_failure_cases_witness :
    (is_scraping_allowedRfp (fun _ => RobotsHttpOutcome.raised "connection refused")
      freshRFP "http://a.com/x" "*").1 = true :=
  (robots_read_failure_cases (fun _ => RobotsHttpOutcome.raised "connection refused")
    "http://a.com/x" "*").1 "connection refused" rfl

/-! ## Claim theorems: the fetch path of `scrape_website_text` -/

/-- C4: when the host's robots.txt parses and disallows the URL's path for
agent `*`, `scrape_website_text` returns the disallowed message (the code's
Disallowed outcome) and issues no page-content GET at all. -/
theorem scrape_disallowed_no_get (env : ScrapeEnv) (url : String) (rp : RobotsParser)
    (hread : env.readRobots (robotsUrlOf url) = Except.ok rp)
    (hdeny : rp.canFetch "*" (checkPathOf url) = false) :
    (scrape_website_text env url).1 = some (disallowedMsg url) ∧
    ∀ u, NetEvent.get u ∉ (scrape_website_text env url).2 := by
  have hchk : is_scraping_allowed env url "*"
      = (false, [NetEvent.robotsFetch (robotsUrlOf url)]) := by
    unfold is_scraping_allowed
    simp [hread, hdeny]
  constructor
  · unfold scrape_website_text
    simp [hchk]
  · intro u
    unfold scrape_website_text
    simp [hchk]

/-- C4 witness: a concrete all-deny robots environment; the fetch returns the
disallowed message and its event trace holds no GET. -/
theorem scrape_disallowed_no_get_witness :
    (scrape_website_text envDeny "http://a.com/x").1 = some (disallowedMsg "http://a.com/x") ∧
    ∀ u, NetEvent.get u ∉ (scrape_website_text envDeny "http://a.com/x").2 :=
  scrape_disallowed_no_get envDeny "http://a.com/x" rpDeny rfl rfl

/-- An environment that allows scraping and serves a non-HTML response. -/
def envBadType : ScrapeEnv :=
  { readRobots := fun _ => Except.ok rpAllow,
    httpGet := fun _ => HttpResult.success 200 "application/pdf" ⟨[]⟩ }

/-- C8 counterexample: a timeout failure and an unsupported-content-type
failure both come back to the caller as the very same value `None`, so the
failure modes are not returned as mutually distinguishable typed outcomes. -/
theorem scrape_outcome_counterexample :
    (scrape_website_text envAllow "http://a.com/x").1 = none ∧
    (scrape_website_text envBadType "http://a.com/x").1 = none ∧
    (scrape_website_text envAllow "http://a.com/x").1
      = (scrape_website_text envBadType "http://a.com/x").1 := by
  refine ⟨?_, ?_, ?_⟩ <;> decide

/-- C8 (amended): no failure of `scrape_website_text` is raised to the caller,
but only policy denial is distinguishable (a message string); timeout,
transport/HTTP error, unsupported content type and missing-body extraction
failure all collapse to the single return value `None`. -/
theorem scrape_failure_outcomes (env : ScrapeEnv) (url : String) :
    ((is_scraping_allowed env url "*").1 = false →
      (scrape_website_text env url).1 = some (disallowedMsg url)) ∧
    ((is_scraping_allowed env url "*").1 = true → env.httpGet url = HttpResult.timeout →
      (scrape_website_text env url).1 = none) ∧
    ((is_scraping_allowed env url "*").1 = true →
      ∀ e, env.httpGet url = HttpResult.requestError e →
      (scrape_website_text env url).1 = none) ∧
    (∀ st ct sp, (is_scraping_allowed env url "*").1 = true →
      env.httpGet url = HttpResult.success st ct sp → 400 ≤ st → st < 600 →
      (scrape_website_text env url).1 = none) ∧
    (∀ st ct sp, (is_scraping_allowed env url "*").1 = true →
      env.httpGet url = HttpResult.success st ct sp → ¬ (400 ≤ st ∧ st < 600) →
      strContains (strToLower ct) "text/html" = false →
      (scrape_website_text env url).1 = none) ∧
    (∀ st ct sp, (is_scraping_allowed env url "*").1 = true →
      env.httpGet url = HttpResult.success st ct sp → ¬ (400 ≤ st ∧ st < 600) →
      strContains (strToLower ct) "text/html" = true →
      bodySelect (decomposeTags sp) = none →
      (scrape_website_text env url).1 = none) := by
  refine ⟨?_, ?_, ?_, ?_, ?_, ?_⟩
  · intro h1
    unfold scrape_website_text
    simp [h1]
  · intro h1 h2
    unfold scrape_website_text
    simp [h1, h2]
  · intro h1 e h2
    unfold scrape_website_text
    simp [h1, h2]
  · intro st ct sp h1 h2 hge hlt
    unfold scrape_website_text
    simp [h1, h2, hge, hlt]
  · intro st ct sp h1 h2 hnot hct
    unfold scrape_website_text
    simp [h1, h2, hnot, hct]
  · intro st ct sp h1 h2 hnot hct hbody
    unfold scrape_website_text
    simp [h1, h2, hnot, hct, selectAndExtract, hbody]

/-- C8 witness: the timeout conjunct applied to a concrete environment. -/
theorem scrape_failure_outcomes_witness :
    (scrape_website_text envAllow "http://a.com/x").1 = none :=
  (scrape_failure_outcomes envAllow "http://a.com/x").2.1 (by decide) rfl

/-! ## Claim theorems: body-region selection order -/

/-- The candidate selectors in the order the code tries them: article, main,
id `content`, id `main-content`, class `post-content`, class `entry-content`,
ARIA role `main`, and finally the document body. -/
def candidateFinders : List (Soup → Option Tag) :=
  [fun s => s.findTag "article",
   fun s => s.findTag "main",
   fun s => s.findByIdAttr "content",
   fun s => s.findByIdAttr "main-content",
   fun s => s.findByClass "post-content",
   fun s => s.findByClass "entry-content",
   fun s => s.findByRole "main",
   fun s => s.findTag "body"]

/-- The k-th candidate selector applied to a document. -/
def candidateAt (k : Nat) (s : Soup) : Option Tag :=
  (candidateFinders.getD k (fun _ => none)) s

@[simp] theorem pyOr_none (b : Option Tag) : pyOr none b = b := rfl

@[simp] theorem pyOr_some (t : Tag) (b : Option Tag) : pyOr (some t) b = some t := rfl

/-- C7: the body region is selected by trying the candidates of
`candidateFinders` in their fixed order — article, main, id `content`, id
`main-content`, class `post-content`, class `entry-content`, role `main`,
then the document body — and the first candidate that finds a tag wins; when
no candidate matches at all (no body-equivalent region), extraction returns
`None` (the ParseFailure outcome). -/
theorem bodySelect_first_candidate (s : Soup) :
    (∀ k, k < 8 → ∀ t : Tag,
      (∀ j, j < k → candidateAt j s = none) →
      candidateAt k s = some t →
      bodySelect s = some t ∧ selectAndExtract s = some (collapseWs t.text)) ∧
    ((∀ j, j < 8 → candidateAt j s = none) →
      bodySelect s = none ∧ selectAndExtract s = none) := by
  constructor
  · intro k hk t hprev hcur
    have hsel : bodySelect s = some t := by
      interval_cases k <;>
        [skip;
         (have h0 := hprev 0 (by omega));
         (have h0 := hprev 0 (by omega); have h1 := hprev 1 (by omega));
         (have h0 := hprev 0 (by omega); have h1 := hprev 1 (by omega);
          have h2 := hprev 2 (by omega));
         (have h0 := hprev 0 (by omega); have h1 := hprev 1 (by omega);
          have h2 := hprev 2 (by omega); have h3 := hprev 3 (by omega));
         (have h0 := hprev 0 (by omega); have h1 := hprev 1 (by omega);
          have h2 := hprev 2 (by omega); have h3 := hprev 3 (by omega);
          have h4 := hprev 4 (by omega));
         (have h0 := hprev 0 (by omega); have h1 := hprev 1 (by omega);
          have h2 := hprev 2 (by omega); have h3 := hprev 3 (by omega);
          have h4 := hprev 4 (by omega); have h5 := hprev 5 (by omega));
         (have h0 := hprev 0 (by omega); have h1 := hprev 1 (by omega);
          have h2 := hprev 2 (by omega); have h3 := hprev 3 (by omega);
          have h4 := hprev 4 (by omega); have h5 := hprev 5 (by omega);
          have h6 := hprev 6 (by omega))] <;>
      simp_all [candidateAt, candidateFinders, bodySelect, mainContent]
    exact ⟨hsel, by simp [selectAndExtract, hsel]⟩
  · intro hall
    have h0 := hall 0 (by omega); have h1 := hall 1 (by omega)
    have h2 := hall 2 (by omega); have h3 := hall 3 (by omega)
    have h4 := hall 4 (by omega); have h5 := hall 5 (by omega)
    have h6 := hall 6 (by omega); have h7 := hall 7 (by omega)
    have hsel : bodySelect s = none := by
      simp_all [candidateAt, candidateFinders, bodySelect, mainContent]
    exact ⟨hsel, by simp [selectAndExtract, hsel]⟩

/-- A document with no article tag whose second element is a `main` tag. -/
def soupMainOnly : Soup :=
  ⟨[⟨"div", none, [], none, "x"⟩, ⟨"main", none, [], none, "hello world"⟩]⟩

/-- The `main` tag of `soupMainOnly`. -/
def mainTagW : Tag := ⟨"main", none, [], none, "hello world"⟩

/-- C7 witness: on a concrete document with no `article` but a `main` tag,
the second candidate wins. -/
theorem bodySelect_first_candidate_witness :
    bodySelect soupMainOnly = some mainTagW ∧
    selectAndExtract soupMainOnly = some (collapseWs mainTagW.text) :=
  (bodySelect_first_candidate soupMainOnly).1 1 (by omega) mainTagW
    (by decide) (by decide)

/-! ## Claim theorems: batch search (`searchTopics`) -/

theorem str_ne_empty_of_pos (s : String) (h : 0 < s.length) : s ≠ "" := by
  intro he
  rw [he] at h
  simp at h

theorem sectionText_pos (q h a : String) : 0 < (sectionText q h a).length := by
  simp only [sectionText, String.length_append]
  have h23 : ("--- Results for Query: ").length = 23 := by decide
  omega

theorem getD_range_map (f : Nat → String) (n i : Nat) (d : String) (h : i < n) :
    ((List.range n).map f).getD i d = f i := by
  have h1 : i < ((List.range n).map f).length := by simp [h]
  rw [List.getD_eq_getElem _ _ h1]
  simp

theorem buildOutput_ne_empty (L : List String) (hL : L ≠ [])
    (hall : ∀ s ∈ L, 0 < s.length) : buildOutput L ≠ "" := by
  cases L with
  | nil => contradiction
  | cons s rest =>
    apply str_ne_empty_of_pos
    cases rest with
    | nil => simpa [buildOutput] using hall s (by simp)
    | cons r rs =>
      have hs := hall s (by simp)
      simp only [buildOutput, String.length_append]
      omega

theorem reportSections_all_pos (queryList headline adv : List String) :
    ∀ s ∈ reportSections queryList headline adv, 0 < s.length := by
  intro s hs
  simp only [reportSections, List.mem_map, List.mem_range] at hs
  obtain ⟨i, _, rfl⟩ := hs
  exact sectionText_pos _ _ _

/-- C1: when both provider batches return (one result string per query, as
LangChain's `batch` yields), `searchTopics` builds exactly one section per
query, in query order, with a query whose results are empty strings still
receiving its own section; the returned report is exactly those sections
joined by the separator. -/
theorem searchTopics_sections (env : SearchEnv) (queryList headline adv : List String)
    (k : Int)
    (hH : env.headlineBatch queryList = Except.ok headline)
    (hA : env.advBatch queryList k = Except.ok adv)
    (hlenH : headline.length = queryList.length)
    (hlenA : adv.length = queryList.length) :
    (reportSections queryList headline adv).length = queryList.length ∧
    (∀ i, i < queryList.length →
      (reportSections queryList headline adv).getD i "" =
        sectionText (queryList.getD i "") (headline.getD i "No headline result found.")
          (adv.getD i "No wider result found.")) ∧
    searchTopics env queryList k = buildOutput (reportSections queryList headline adv) := by
  have hmin : min (min queryList.length headline.length) adv.length = queryList.length := by
    omega
  refine ⟨?_, ?_, ?_⟩
  · simp [reportSections, hmin]
  · intro i hi
    simp only [reportSections, hmin]
    exact getD_range_map _ _ _ _ hi
  · unfold searchTopics
    rw [hH, hA]
    by_cases hq : queryList = []
    · subst hq
      simp [reportSections, buildOutput]
    · have hne : buildOutput (reportSections queryList headline adv) ≠ "" := by
        apply buildOutput_ne_empty
        · intro hnil
          have hlen : (reportSections queryList headline adv).length = queryList.length := by
            simp [reportSections, hmin]
          rw [hnil] at hlen
          simp only [List.length_nil] at hlen
          exact hq (List.length_eq_zero.mp hlen.symm)
        · exact reportSections_all_pos _ _ _
      simp [hne]

/-- A search environment whose batches return one (empty) result string per
query for a two-query list. -/
def envBatchOk : SearchEnv :=
  ⟨fun _ => Except.ok ["", ""], fun _ _ => Except.ok ["", ""]⟩

/-- C1 witness: two queries whose providers return empty strings still give a
two-section report equal to the joined sections. -/
theorem searchTopics_sections_witness :
    (reportSections ["q1", "q2"] ["", ""] ["", ""]).length = 2 ∧
    searchTopics envBatchOk ["q1", "q2"] 5
      = buildOutput (reportSections ["q1", "q2"] ["", ""] ["", ""]) := by
  have h := searchTopics_sections envBatchOk ["q1", "q2"] ["", ""] ["", ""] 5 rfl rfl rfl rfl
  exact ⟨h.1, h.2.2⟩

theorem batchOf_error_of_mem (f : String → Except String String) (qs : List String)
    (q0 e : String) (hq : q0 ∈ qs) (hf : f q0 = Except.error e) :
    ∃ e2, batchOf f qs = Except.error e2 := by
  induction qs with
  | nil => cases hq
  | cons q rest ih =>
    cases hfq : f q with
    | error e3 => exact ⟨e3, by simp [batchOf, hfq]⟩
    | ok s =>
      have hmem : q0 ∈ rest := by
        rcases List.mem_cons.mp hq with h | h
        · rw [← h] at hfq
          rw [hf] at hfq
          cases hfq
        · exact h
      obtain ⟨e2, he2⟩ := ih hmem
      exact ⟨e2, by simp [batchOf, hfq, he2]⟩

/-- C5 (amended): a provider failure for any single query raises out of the
whole `batch` call; `searchTopics` catches it at the top level and replaces
the entire output with a single error message, so no per-query results — not
even those of the succeeding queries — are present. -/
theorem searchTopics_provider_failure_aborts (f : String → Except String String)
    (env : SearchEnv) (queryList : List String) (k : Int) (q0 e : String)
    (henv : env.headlineBatch queryList = batchOf f queryList)
    (hq : q0 ∈ queryList) (hf : f q0 = Except.error e) :
    ∃ e2, batchOf f queryList = Except.error e2 ∧
      searchTopics env queryList k = "An error occurred during batch search: " ++ e2 := by
  obtain ⟨e2, he2⟩ := batchOf_error_of_mem f queryList q0 e hq hf
  refine ⟨e2, he2, ?_⟩
  unfold searchTopics
  rw [henv, he2]

/-- A per-query provider that fails for `q2` and succeeds for other queries. -/
def failF : String → Except String String :=
  fun q => if q = "q2" then Except.error "boom" else Except.ok ("ans " ++ q)

/-- A search environment whose headline batch runs `failF` per query. -/
def envOneFails : SearchEnv :=
  ⟨batchOf failF, fun _ _ => Except.ok ["a1", "a2"]⟩

/-- C5 witness: with the concrete one-query-failing provider, the whole batch
output is the single error message. -/
theorem searchTopics_provider_failure_aborts_witness :
    ∃ e2, batchOf failF ["q1", "q2"] = Except.error e2 ∧
      searchTopics envOneFails ["q1", "q2"] 5
        = "An error occurred during batch search: " ++ e2 :=
  searchTopics_provider_failure_aborts failF envOneFails ["q1", "q2"] 5 "q2" "boom"
    rfl (by simp) rfl

/-- C5 counterexample: query `q1` succeeds with result `ans q1` while `q2`
fails, yet the batch output is only the error message — `q1`'s results are
not present anywhere in it. -/
theorem searchTopics_single_failure_counterexample :
    searchTopics envOneFails ["q1", "q2"] 5
      = "An error occurred during batch search: boom" ∧
    strContains (searchTopics envOneFails ["q1", "q2"] 5) "ans q1" = false := by
  constructor <;> decide

/-! ## Claim theorems: article collection (`get_latest_news_text`) -/

theorem length_mk (l : List Char) : (String.mk l).length = l.length := rfl

theorem strTake_length (s : String) (m : Nat) : (strTake s m).length = min m s.length := by
  obtain ⟨l⟩ := s
  simp [strTake, length_mk, List.length_take]

theorem strTake_full (s : String) (m : Nat) (h : s.length ≤ m) : strTake s m = s := by
  obtain ⟨l⟩ := s
  simp only [strTake]
  congr 1
  exact List.take_of_length_le h

theorem truncateArticle_spec (m : Nat) (s : String) :
    (truncateArticle m s).length ≤ m + 3 ∧
    (s.length ≤ m → truncateArticle m s = s) ∧
    (m < s.length → truncateArticle m s = strTake s m ++ "...") := by
  unfold truncateArticle
  by_cases h : s.length > m
  · refine ⟨?_, ?_, ?_⟩
    · simp only [if_pos h, String.length_append, strTake_length]
      have h3 : ("...").length = 3 := by decide
      omega
    · intro hle
      omega
    · intro _
      simp [h]
  · refine ⟨?_, ?_, ?_⟩
    · simp only [if_neg h, strTake_length]
      omega
    · intro hle
      simp [h, strTake_full s m hle]
    · intro hlt
      omega

theorem newsLoop_invariant (scrape : String → Option String) (n m : Nat)
    (results : List SearchRecord) (st : NewsState)
    (h1 : st.count = st.articles.length)
    (h2 : st.articles.length ≤ n)
    (h3 : ∀ p ∈ st.articles, p.1 ∈ st.urlsProcessed)
    (h4 : (st.articles.map Prod.fst).Nodup)
    (h5 : ∀ p ∈ st.articles, ∃ s, scrape p.1 = some s ∧ p.2 = truncateArticle m s) :
    (newsLoop scrape n m results st).count = (newsLoop scrape n m results st).articles.length ∧
    (newsLoop scrape n m results st).articles.length ≤ n ∧
    (∀ p ∈ (newsLoop scrape n m results st).articles,
      p.1 ∈ (newsLoop scrape n m results st).urlsProcessed) ∧
    ((newsLoop scrape n m results st).articles.map Prod.fst).Nodup ∧
    (∀ p ∈ (newsLoop scrape n m results st).articles,
      ∃ s, scrape p.1 = some s ∧ p.2 = truncateArticle m s) := by
  induction results generalizing st with
  | nil =>
    simp only [newsLoop]
    exact ⟨h1, h2, h3, h4, h5⟩
  | cons r rest ih =>
    by_cases hcnt : st.count ≥ n
    · simp only [newsLoop, if_pos hcnt]
      exact ⟨h1, h2, h3, h4, h5⟩
    · by_cases hurl : r.link ≠ "" ∧ r.link ∉ st.urlsProcessed
      · cases hscr : scrape r.link with
        | some content =>
          simp only [newsLoop, if_neg hcnt, if_pos hurl, hscr]
          apply ih
          · simp [h1]
          · simp only [List.length_append, List.length_singleton]
            omega
          · intro p hp
            simp only [List.mem_append, List.mem_singleton] at hp
            rcases hp with hp | hp
            · exact List.mem_cons_of_mem _ (h3 p hp)
            · rw [hp]
              exact List.mem_cons_self _ _
          · simp only [List.map_append, List.map_cons, List.map_nil]
            rw [List.nodup_append]
            refine ⟨h4, List.nodup_singleton _, ?_⟩
            intro a ha hb
            simp only [List.mem_singleton] at hb
            rw [hb] at ha
            obtain ⟨p, hp, hpa⟩ := List.mem_map.mp ha
            exact hurl.2 (hpa ▸ h3 p hp)
          · intro p hp
            simp only [List.mem_append, List.mem_singleton] at hp
            rcases hp with hp | hp
            · exact h5 p hp
            · rw [hp]
              exact ⟨content, hscr, rfl⟩
        | none =>
          simp only [newsLoop, if_neg hcnt, if_pos hurl, hscr]
          apply ih
          · exact h1
          · exact h2
          · intro p hp
            exact List.mem_cons_of_mem _ (h3 p hp)
          · exact h4
          · exact h5
      · simp only [newsLoop, if_neg hcnt, if_neg hurl]
        exact ih st h1 h2 h3 h4 h5

/-- C3 (amended): the article-collection loop returns at most `num_articles`
articles with no URL appearing twice, and each stored text is the scraped
text truncated to `max_chars_per_article` characters with the 3-character
marker `...` appended exactly when the source text was longer — so a stored
text has length at most `max_chars_per_article + 3`, and only untruncated
texts are within `max_chars_per_article`. -/
theorem collect_bounds (scrape : String → Option String) (n m : Nat)
    (results : List SearchRecord) :
    (newsLoop scrape n m results newsInit).articles.length ≤ n ∧
    ((newsLoop scrape n m results newsInit).articles.map Prod.fst).Nodup ∧
    (∀ p ∈ (newsLoop scrape n m results newsInit).articles,
      ∃ s, scrape p.1 = some s ∧ p.2 = truncateArticle m s ∧
        p.2.length ≤ m + 3 ∧
        (s.length ≤ m → p.2 = s) ∧
        (m < s.length → p.2 = strTake s m ++ "...")) := by
  obtain ⟨-, h2, -, h4, h5⟩ := newsLoop_invariant scrape n m results newsInit rfl
    (by simp [newsInit]) (by simp [newsInit]) (by simp [newsInit]) (by simp [newsInit])
  refine ⟨h2, h4, ?_⟩
  intro p hp
  obtain ⟨s, hs1, hs2⟩ := h5 p hp
  obtain ⟨t1, t2, t3⟩ := truncateArticle_spec m s
  exact ⟨s, hs1, hs2, hs2 ▸ t1, fun h => hs2.trans (t2 h), fun h => hs2.trans (t3 h)⟩

/-- C3 counterexample: with the limit `m = 5` and a scraped text of 8
characters, the stored article text is `abcde...` of length 8, which exceeds
the claimed bound of `m` characters. -/
theorem collect_truncation_counterexample :
    (newsLoop (fun _ => some "abcdefgh") 3 5 [⟨"T", "http://a.com/x", "S"⟩] newsInit).articles
      = [("http://a.com/x", "abcde...")] ∧
    ¬ (("abcde...").length ≤ 5) := by
  constructor <;> decide

theorem newsLoop_all_fail (scrape : String → Option String) (n m : Nat)
    (hscrape : ∀ u, scrape u = none) (results : List SearchRecord) :
    ∀ st : NewsState,
      (newsLoop scrape n m results st).count = st.count ∧
      (newsLoop scrape n m results st).articles = st.articles ∧
      (newsLoop scrape n m results st).combined = st.combined := by
  induction results with
  | nil =>
    intro st
    simp [newsLoop]
  | cons r rest ih =>
    intro st
    by_cases hcnt : st.count ≥ n
    · simp [newsLoop, hcnt]
    · by_cases hurl : r.link ≠ "" ∧ r.link ∉ st.urlsProcessed
      · simp only [newsLoop, if_neg hcnt, if_pos hurl, hscrape r.link]
        exact ih _
      · simp only [newsLoop, if_neg hcnt, if_neg hurl]
        exact ih _

/-- C6: when every candidate URL fails to scrape, the collection run ends
with `articles_processed_count = 0` and an empty article sequence, and
`get_latest_news_text` returns its designated no-usable-content value `None`
(a normal return, not an exception). -/
theorem collect_all_fail_empty (env : NewsEnv) (topic : String) (n m : Nat)
    (hscrape : ∀ u, env.scrape u = none) :
    (newsLoop env.scrape n m
      (search_web_ddg env.ddgText ("latest news " ++ topic) ((n : Int) + 2))
      newsInit).count = 0 ∧
    (newsLoop env.scrape n m
      (search_web_ddg env.ddgText ("latest news " ++ topic) ((n : Int) + 2))
      newsInit).articles = [] ∧
    get_latest_news_text env topic n m = none := by
  obtain ⟨hc, ha, -⟩ := newsLoop_all_fail env.scrape n m hscrape
    (search_web_ddg env.ddgText ("latest news " ++ topic) ((n : Int) + 2)) newsInit
  refine ⟨hc, ha, ?_⟩
  unfold get_latest_news_text
  by_cases hres : (search_web_ddg env.ddgText ("latest news " ++ topic)
      ((n : Int) + 2)).isEmpty
  · simp [hres]
  · have hc0 : (newsLoop env.scrape n m
        (search_web_ddg env.ddgText ("latest news " ++ topic) ((n : Int) + 2))
        newsInit).count = 0 := hc
    simp [hres, hc0]

/-- An environment whose search yields one candidate but whose scrapes all
fail. -/
def newsEnvAllFail : NewsEnv :=
  ⟨fun _ _ => Except.ok [⟨some "T", some "http://a.com/x", some "S"⟩], fun _ => none⟩

/-- C6 witness: the all-scrapes-fail environment at concrete inputs. -/
theorem collect_all_fail_empty_witness :
    get_latest_news_text newsEnvAllFail "ai" 2 100 = none :=
  (collect_all_fail_empty newsEnvAllFail "ai" 2 100 (fun _ => rfl)).2.2

/-! ## Claim theorems: `search_web_ddg` -/

theorem ddgLoopAux_length (n : Int) (rs : List DDGRecord) :
    ∀ i : Nat, (i : Int) < n → (ddgLoopAux n rs i).length ≤ (n - i).toNat := by
  induction rs with
  | nil =>
    intro i hi
    simp [ddgLoopAux]
  | cons r rest ih =>
    intro i hi
    simp only [ddgLoopAux]
    by_cases hbr : (i : Int) ≥ n - 1
    · simp only [if_pos hbr, List.length_cons, List.length_nil]
      omega
    · simp only [if_neg hbr, List.length_cons]
      have h2 := ih (i + 1) (by push_cast; omega)
      push_cast at h2 ⊢
      omega

theorem ddgLoopAux_mem (n : Int) (rs : List DDGRecord) :
    ∀ i : Nat, ∀ x ∈ ddgLoopAux n rs i, ∃ r ∈ rs, x = mapRecord r := by
  induction rs with
  | nil =>
    intro i x hx
    simp [ddgLoopAux] at hx
  | cons r rest ih =>
    intro i x hx
    simp only [ddgLoopAux] at hx
    by_cases hbr : (i : Int) ≥ n - 1
    · simp only [if_pos hbr, List.mem_singleton] at hx
      exact ⟨r, by simp, hx⟩
    · simp only [if_neg hbr, List.mem_cons] at hx
      rcases hx with hx | hx
      · exact ⟨r, by simp, hx⟩
      · obtain ⟨r2, hr2, hx2⟩ := ih (i + 1) x hx
        exact ⟨r2, by simp [hr2], hx2⟩

/-- C10 (amended): a provider exception makes `search_web_ddg` return `[]`;
for every requested count of at least 1, the result has at most that many
elements; and every returned element is a provider record mapped to the
`title`/`link`/`snippet` record with missing fields defaulted to the empty
string. (For a requested count of 0 or less, the loop still consumes one
provider record before its break check, so the bound fails — see the
counterexample.) -/
theorem search_web_ddg_spec (ddgText : String → Int → Except String (List DDGRecord))
    (query : String) (numResults : Int) :
    (∀ e, ddgText query numResults = Except.error e →
      search_web_ddg ddgText query numResults = []) ∧
    (∀ rs, ddgText query numResults = Except.ok rs → 1 ≤ numResults →
      (search_web_ddg ddgText query numResults).length ≤ numResults.toNat) ∧
    (∀ rs, ddgText query numResults = Except.ok rs →
      ∀ x ∈ search_web_ddg ddgText query numResults, ∃ r ∈ rs, x = mapRecord r) := by
  refine ⟨?_, ?_, ?_⟩
  · intro e he
    unfold search_web_ddg
    rw [he]
  · intro rs hok h1
    unfold search_web_ddg
    rw [hok]
    have h2 := ddgLoopAux_length numResults rs 0 (by push_cast; omega)
    push_cast at h2
    simpa using h2
  · intro rs hok x hx
    unfold search_web_ddg at hx
    rw [hok] at hx
    exact ddgLoopAux_mem numResults rs 0 x hx

/-- A provider returning a single record with a missing title and snippet. -/
def ddgOneRecord : String → Int → Except String (List DDGRecord) :=
  fun _ _ => Except.ok [⟨none, some "http://a.com/x", none⟩]

/-- C10 witness: the length bound applied at a concrete provider and count. -/
theorem search_web_ddg_spec_witness :
    (search_web_ddg ddgOneRecord "q" 3).length ≤ (3 : Int).toNat :=
  (search_web_ddg_spec ddgOneRecord "q" 3).2.1 [⟨none, some "http://a.com/x", none⟩]
    rfl (by omega)

/-- A provider returning two records regardless of the requested count. -/
def ddgTwoRecords : String → Int → Except String (List DDGRecord) :=
  fun _ _ => Except.ok [⟨some "t", some "l", some "s"⟩, ⟨none, none, none⟩]

/-- C10 counterexample: with requested count 0 and a provider that still
yields records, `search_web_ddg` returns 1 element, exceeding the claimed
`at most num_results` bound — the break check `i >= num_results - 1` runs
only after the first append. -/
theorem search_web_ddg_zero_counterexample :
    (search_web_ddg ddgTwoRecords "q" 0).length = 1 ∧
    ¬ ((search_web_ddg ddgTwoRecords "q" 0).length ≤ 0) := by
  constructor <;> decide
